import Mathlib

/-!
Verification of the gpt-repl session engine.

Shallow embedding of `src/gpt_repl/repl.py` (the session loop, streaming
renderer, rollback/commit/persist paths), `src/gpt_repl/config.py`
(plugin loading) and `src/gpt_repl/llms/gpt3.py` (credential check).
The thread record and the mode capability set live in repository files not
present here (`threads.py`, `modes.py`); those are modelled from the spec and
say so in their doc comments.
-/

/-- Python's whitespace class as used by `str.strip()` / `str.lstrip()` with
no argument (ASCII part): space, tab, newline, carriage return, vertical tab,
form feed. -/
def isPyWs (c : Char) : Bool :=
  c = ' ' || c = '\t' || c = '\n' || c = '\r' || c = '\x0b' || c = '\x0c'

/-- Python `s.lstrip()`: drop leading whitespace. -/
def pyLstrip (s : String) : String :=
  ⟨s.data.dropWhile isPyWs⟩

/-- Python `s.rstrip()`: drop trailing whitespace. -/
def pyRstrip (s : String) : String :=
  ⟨(s.data.reverse.dropWhile isPyWs).reverse⟩

/-- Python `s.strip()`: drop leading and trailing whitespace. -/
def pyStrip (s : String) : String :=
  pyRstrip (pyLstrip s)

/-- Python `s.endswith(suffix)`. -/
def pyEndsWith (s suff : String) : Bool :=
  suff.data.isSuffixOf s.data

/-- Modelled from the spec: the `Message` record of the missing `threads.py`
(spec section 3): one conversational turn-half with a `source` in
`you`/`gpt`, the rendered `text`, and a free-form `stats` display string,
empty for user messages. -/
structure Message where
  source : String
  text : String
  stats : String
  deriving Repr, DecidableEq

/-- Modelled from the spec: the `Thread` record of the missing `threads.py`
(spec section 3): a named durable conversation holding the ordered message
sequence, the active mode record (name plus opaque state mapping, flattened
here into `modeName` and `modeState`), and the conversation seed. -/
structure Thread where
  name : String
  messages : List Message
  modeName : String
  modeState : List (String × String)
  seed : String
  deriving Repr, DecidableEq

/-- Modelled from the spec: `Thread.add_message` of the missing `threads.py`
appends one immutable message ("messages: ordered sequence of Message,
append-only during a session"). -/
def Thread.add_message (t : Thread) (source text stats : String) : Thread :=
  { t with messages := t.messages ++ [⟨source, text, stats⟩] }

/-- Modelled from the spec: `Thread.set_mode` of the missing `threads.py`
stores the active mode name and its saved state snapshot on the thread
(spec section 3, the `mode` record). -/
def Thread.set_mode (t : Thread) (name : String) (state : List (String × String)) : Thread :=
  { t with modeName := name, modeState := state }

/-- Modelled from the spec: `Thread.reset` of the missing `threads.py`
"clears `messages` in place; the engine is responsible for re-deriving mode
state afterward" (spec 4.1). -/
def Thread.reset (t : Thread) : Thread :=
  { t with messages := [] }

/-- Modelled from the spec: the mode capability set of the missing `modes.py`
(spec sections 3 and 4.2). `μ` is the mode's internal memory type.
`construct` is `get_mode(name)(state=state)`; `ask` runs the fragment
generator to exhaustion, returning the mutated memory and the emitted
fragments in emission order; the remaining fields are the lifecycle hooks the
engine calls. -/
structure Mode (μ : Type) where
  construct : List (String × String) → μ
  setSeed : μ → String → μ
  ask : μ → String → μ × List String
  rollback : μ → μ
  save : μ → List (String × String)
  getSeed : μ → String
  stats : μ → String
  getTitle : μ → String

/-- The engine state carried across iterations of `REPL.run` (repl.py):
the in-memory thread, the persisted durable record for it (`none` before the
first save), the session's mode name, the live mode memory, and the
`first_run` flag. -/
structure ReplState (μ : Type) where
  thread : Thread
  persisted : Option Thread
  modeName : String
  modeMem : μ
  firstRun : Bool

/-- `REPL.save_thread` (repl.py lines 163-166): store the mode name and the
`mode.save()` snapshot on the thread, copy the mode's seed, then persist the
thread record (`Thread.save` of the missing `threads.py`, modelled from the
spec as overwriting the single durable record for this thread). -/
def saveThread {μ : Type} (m : Mode μ) (s : ReplState μ) : ReplState μ :=
  let t0 := s.thread.set_mode s.modeName (m.save s.modeMem)
  let t := { t0 with seed := m.getSeed s.modeMem }
  { s with thread := t, persisted := some t }

/-- Successive values of the accumulator `answer` in the streaming loop of
`REPL.ask` (repl.py lines 200-206): starting from `acc`, each fragment `data`
runs `answer += data`. -/
def accumStates : List String → String → List String
  | [], _ => []
  | d :: ds, acc => (acc ++ d) :: accumStates ds (acc ++ d)

/-- The text rendered for one accumulator value in `REPL.ask` (repl.py line
204): `answer.lstrip() + '█'`, handed to the external markdown renderer. -/
def renderedFrame (acc : String) : String :=
  pyLstrip acc ++ "█"

/-- `REPL.ask` (repl.py lines 194-208), pure content: the generator from
`mode.ask` is consumed to exhaustion (first fragment pulled eagerly under the
loader, the rest in the streaming loop), the fragments accumulate with
`answer += data`, and `answer.strip()` is returned. -/
def replAsk (frags : List String) : String :=
  pyStrip (frags.foldl (fun acc d => acc ++ d) "")

/-- What the environment does during one iteration of the `REPL.run` loop:
the input step raises an interruption (caught by the outer handler), or a
command swallows the turn (`text == None`), or it yields text; with text, the
`answer = self.ask(text)` call is interrupted by the user after `k` fragments,
raises some non-interrupt exception, or completes. -/
inductive TurnEvent where
  | inputInterrupt
  | commandBreak
  | askInterrupted (text : String) (k : Nat)
  | askError (text : String)
  | success (text : String)

/-- Whether the loop iteration falls through to the next iteration or the
process exits with the given status. -/
inductive StepOutcome where
  | continued
  | exited (code : Nat)
  deriving Repr, DecidableEq

/-- Observable side effects of one loop iteration: how many times
`mode.rollback()` ran, and which notices were printed. -/
structure TurnLog where
  rollbacks : Nat
  canceledNotice : Bool
  threadClosedNotice : Bool
  diagnostics : Bool
  deriving Repr, DecidableEq

/-- One iteration of the `REPL.run` loop body (repl.py lines 64-103), given
what the environment does at this iteration. Each branch mirrors one control
path of the source: the outer interrupt handler (save, notice, exit 0), the
`text == None` continue, the inner interrupt handler around `self.ask`
(rollback, cancel notice, continue), the outer generic exception handler
(notice, diagnostics, exit 1), and the successful commit (append `you` and
`gpt`, save thread, clear `first_run`). -/
def runStep {μ : Type} (m : Mode μ) (s : ReplState μ) (ev : TurnEvent) :
    ReplState μ × StepOutcome × TurnLog :=
  match ev with
  | .inputInterrupt =>
      (saveThread m s, .exited 0, ⟨0, false, true, false⟩)
  | .commandBreak =>
      (s, .continued, ⟨0, false, false, false⟩)
  | .askInterrupted text _k =>
      let memAfter := (m.ask s.modeMem text).1
      ({ s with modeMem := m.rollback memAfter }, .continued, ⟨1, true, false, false⟩)
  | .askError _text =>
      (s, .exited 1, ⟨0, false, true, true⟩)
  | .success text =>
      let stats := m.stats s.modeMem
      let memFrags := m.ask s.modeMem text
      let answer := replAsk memFrags.2
      let t := (s.thread.add_message "you" text "").add_message "gpt" answer stats
      let s1 : ReplState μ := { s with thread := t, modeMem := memFrags.1 }
      let s2 := saveThread m s1
      ({ s2 with firstRun := false }, .continued, ⟨0, false, false, false⟩)

/-- `REPL.load_mode` (repl.py lines 168-170):
`self.mode = get_mode(mode_name)(state=state)` then
`self.mode.set_seed(seed)`; the Python defaults are `state={}` and
`seed=''`. Returns the fresh mode memory. -/
def loadMode {μ : Type} (m : Mode μ) (state : List (String × String)) (seed : String) : μ :=
  m.setSeed (m.construct state) seed

/-- `REPL.reset` (repl.py lines 172-177): re-load the mode with the default
(empty) state and the old mode instance's seed, clear the thread's messages,
then `save_thread`. -/
def replReset {μ : Type} (m : Mode μ) (s : ReplState μ) : ReplState μ :=
  let mem := loadMode m [] (m.getSeed s.modeMem)
  saveThread m { s with modeMem := mem, thread := s.thread.reset }

/-- Python truthiness `or` on strings: `a or b` is `a` when `a` is truthy
(non-empty), else `b`; an absent (`None`) name is encoded as `""`, which is
falsy exactly like the empty string. -/
def pyOrS (a b : String) : String :=
  if a = "" then b else a

/-- Mode-name resolution in `REPL.__init__` (repl.py line 29):
`self.thread.mode.name or mode_name or 'synth-chat'`. -/
def initModeName (savedName callerName : String) : String :=
  pyOrS savedName (pyOrS callerName "synth-chat")

/-- The thread after `REPL.__init__` (repl.py lines 28-29): the loaded thread
with the resolved mode name installed via `set_mode`. -/
def replInitThread (loaded : Thread) (callerName : String) : Thread :=
  { loaded with modeName := initModeName loaded.modeName callerName }

/-- Outcome of `GPT3.__init__` (llms/gpt3.py): either the process exits via
`sys.exit` after printing a message, or a client for the given model is
constructed. -/
inductive GPT3Init where
  | exited (code : Nat) (message : String)
  | ok (model : String)
  deriving Repr, DecidableEq

/-- The remediation guidance printed by `GPT3.__init__` when the credential
is missing (llms/gpt3.py line 7), pointing at the OPENAI_API_KEY environment
variable and where to generate a key. -/
def gpt3RemediationMsg : String :=
  "Please set the OPENAI_API_KEY environment variable."

/-- `GPT3.__init__` (llms/gpt3.py lines 5-12): if
`os.environ.get('OPENAI_API_KEY')` is falsy (the variable is unset, giving
`None`, or set to the empty string) print the remediation guidance and run
`sys.exit(0)`; otherwise the client is constructed. The argument is the
result of the environment lookup. -/
def GPT3.init (apiKey : Option String) (model : String) : GPT3Init :=
  match apiKey with
  | none => .exited 0 gpt3RemediationMsg
  | some k => if k = "" then .exited 0 gpt3RemediationMsg else .ok model

/-- The mode registry as far as the plugin loader observes it: the list of
registered mode names (registration is a side effect of executing a plugin
file). -/
abbrev Registry := List String

/-- A plugin file: its path and the effect of executing it on the registry;
`none` stands for the execution raising an exception. -/
structure PluginFile where
  fname : String
  exec : Registry → Option Registry

/-- `Config.load_plugins` (config.py lines 44-56): for each directory entry,
skip it unless its path ends in `.py`; otherwise execute the file; if the
execution raises, `printer.exception(e)` logs it and the loop continues with
the next file. Returns the final registry and the log of files whose
execution raised. -/
def load_plugins : List PluginFile → Registry → Registry × List String
  | [], reg => (reg, [])
  | f :: fs, reg =>
      if pyEndsWith f.fname ".py" then
        match f.exec reg with
        | some reg2 => load_plugins fs reg2
        | none =>
            let rest := load_plugins fs reg
            (rest.1, f.fname :: rest.2)
      else
        load_plugins fs reg

/-- A concrete mode instance over memory `Nat`: each `ask` bumps a counter,
`stats` reports the counter. Used to exhibit that the committed stats string
can differ from the post-turn `mode.stats()` value. -/
def counterMode : Mode Nat where
  construct := fun _ => 0
  setSeed := fun n _ => n
  ask := fun n _ => (n + 1, ["ok"])
  rollback := fun n => n - 1
  save := fun _ => []
  getSeed := fun _ => ""
  stats := fun n => toString n
  getTitle := fun _ => "Counter"

/-- A fresh engine state for `counterMode` over an empty thread. -/
def counterReplState : ReplState Nat :=
  ⟨⟨"demo", [], "counter", [], ""⟩, none, "counter", 0, true⟩

/-- Claim C1: a turn interrupted anywhere between dispatching `mode.ask` and
full streaming completion leaves `thread.messages` and the persisted record
at their pre-turn values, invokes `mode.rollback()` exactly once, emits the
cancellation notice, and the loop continues rather than exiting. -/
theorem turn_interrupt_rollback {μ : Type} (m : Mode μ) (s : ReplState μ)
    (text : String) (k : Nat) :
    (runStep m s (.askInterrupted text k)).1.thread = s.thread ∧
    (runStep m s (.askInterrupted text k)).1.thread.messages = s.thread.messages ∧
    (runStep m s (.askInterrupted text k)).1.persisted = s.persisted ∧
    (runStep m s (.askInterrupted text k)).2.2.rollbacks = 1 ∧
    (runStep m s (.askInterrupted text k)).2.2.canceledNotice = true ∧
    (runStep m s (.askInterrupted text k)).2.1 = .continued :=
  ⟨rfl, rfl, rfl, rfl, rfl, rfl⟩

/-- Claim C2: a successful turn grows `thread.messages` by exactly two
entries, a `you` message carrying the user input followed by a `gpt` message
carrying the answer, and afterwards the thread — including the mode's saved
state snapshot and seed — is persisted. -/
theorem turn_success_append {μ : Type} (m : Mode μ) (s : ReplState μ) (text : String) :
    (runStep m s (.success text)).1.thread.messages =
      s.thread.messages ++
        [⟨"you", text, ""⟩,
         ⟨"gpt", replAsk (m.ask s.modeMem text).2, m.stats s.modeMem⟩] ∧
    (runStep m s (.success text)).1.thread.messages.length =
      s.thread.messages.length + 2 ∧
    (runStep m s (.success text)).1.persisted =
      some (runStep m s (.success text)).1.thread ∧
    (runStep m s (.success text)).1.thread.modeState =
      m.save (m.ask s.modeMem text).1 ∧
    (runStep m s (.success text)).1.thread.seed =
      m.getSeed (m.ask s.modeMem text).1 ∧
    (runStep m s (.success text)).2.1 = .continued := by
  refine ⟨?_, ?_, rfl, rfl, rfl, rfl⟩
  · simp [runStep, saveThread, Thread.add_message, Thread.set_mode]
  · simp [runStep, saveThread, Thread.add_message, Thread.set_mode]

/-- Claim C3: for every finite fragment sequence produced by `mode.ask`, the
answer committed for the turn is the concatenation of all fragments in
emission order with leading and trailing whitespace trimmed. -/
theorem committed_answer_trimmed_concat {μ : Type} (m : Mode μ) (s : ReplState μ)
    (text : String) :
    ((runStep m s (.success text)).1.thread.messages.getLast?).map Message.text =
      some (pyStrip (String.join (m.ask s.modeMem text).2)) ∧
    replAsk (m.ask s.modeMem text).2 = pyStrip (String.join (m.ask s.modeMem text).2) := by
  constructor
  · simp [runStep, saveThread, Thread.add_message, Thread.set_mode,
      List.getLast?_concat, replAsk, String.join]
  · rfl

/-- Claim C10: the stats string attached to the committed `gpt` message is
`mode.stats()` queried before `mode.ask(text)` is dispatched; the concrete
counter mode shows this can differ from the post-turn stats value. -/
theorem gpt_stats_pre_turn {μ : Type} (m : Mode μ) (s : ReplState μ) (text : String) :
    ((runStep m s (.success text)).1.thread.messages.getLast?).map Message.stats =
      some (m.stats s.modeMem) ∧
    counterMode.stats ((counterMode.ask 0 "hi").1) = "1" ∧
    (runStep counterMode counterReplState (.success "hi")).1.thread.messages.map
      Message.stats = ["", "0"] := by
  refine ⟨?_, rfl, ?_⟩
  · simp [runStep, saveThread, Thread.add_message, Thread.set_mode,
      List.getLast?_concat]
  · rfl

/-- Claim C5: a user interruption caught by the outer loop handler saves the
thread, prints the thread-closed notice and exits with status 0; any other
unhandled error in the loop prints the notice and diagnostics and exits with
status 1, committing no partial-turn state (thread and persisted record
unchanged). -/
theorem loop_exit_codes {μ : Type} (m : Mode μ) (s : ReplState μ) (text : String) :
    (runStep m s .inputInterrupt).2.1 = .exited 0 ∧
    (runStep m s .inputInterrupt).2.2.threadClosedNotice = true ∧
    (runStep m s .inputInterrupt).1.persisted =
      some (runStep m s .inputInterrupt).1.thread ∧
    (runStep m s (.askError text)).2.1 = .exited 1 ∧
    (runStep m s (.askError text)).2.2.threadClosedNotice = true ∧
    (runStep m s (.askError text)).2.2.diagnostics = true ∧
    (runStep m s (.askError text)).1.thread = s.thread ∧
    (runStep m s (.askError text)).1.persisted = s.persisted :=
  ⟨rfl, rfl, rfl, rfl, rfl, rfl, rfl, rfl⟩

/-- Claim C9: at session construction the thread's saved mode name, when
non-empty, wins over any caller-supplied name; the caller-supplied name is
used only when the thread has no saved mode, and `synth-chat` is the default
when both are absent. -/
theorem init_keeps_saved_mode (loaded : Thread) (callerName : String) :
    (replInitThread loaded callerName).modeName =
      (if loaded.modeName ≠ "" then loaded.modeName
       else if callerName ≠ "" then callerName
       else "synth-chat") := by
  by_cases h1 : loaded.modeName = "" <;> by_cases h2 : callerName = "" <;>
    simp [replInitThread, initModeName, pyOrS, h1, h2]

/-- Claim C7: when the OPENAI_API_KEY lookup is falsy (unset or empty), the
client constructor prints the remediation message and exits with status 0;
with a key present the client is constructed. -/
theorem missing_credential_clean_exit (model : String) :
    GPT3.init none model = .exited 0 gpt3RemediationMsg ∧
    GPT3.init (some "") model = .exited 0 gpt3RemediationMsg ∧
    GPT3.init (some "sk-key") model = .ok model := by
  refine ⟨rfl, ?_, ?_⟩ <;> simp [GPT3.init]

/-- Claim C8: `reset` clears the thread's messages, re-instantiates the mode
from the default empty state (not the old state) with the old instance's seed
installed, and persists the resulting thread with that fresh mode's snapshot
and seed. -/
theorem reset_clears_and_carries_seed {μ : Type} (m : Mode μ) (s : ReplState μ) :
    (replReset m s).thread.messages = [] ∧
    (replReset m s).modeMem = m.setSeed (m.construct []) (m.getSeed s.modeMem) ∧
    (replReset m s).thread.modeState =
      m.save (m.setSeed (m.construct []) (m.getSeed s.modeMem)) ∧
    (replReset m s).thread.seed =
      m.getSeed (m.setSeed (m.construct []) (m.getSeed s.modeMem)) ∧
    (replReset m s).persisted = some (replReset m s).thread :=
  ⟨rfl, rfl, rfl, rfl, rfl⟩

/-- Claim C6: a plugin file whose execution raises is logged and skipped: the
remaining files are processed exactly as they would have been from the same
registry, so one broken plugin prevents neither later registrations nor the
loader from returning (and thus the session from starting). -/
theorem plugin_isolation (bad : PluginFile) (rest : List PluginFile) (reg : Registry)
    (hpy : pyEndsWith bad.fname ".py" = true) (hfail : bad.exec reg = none) :
    load_plugins (bad :: rest) reg =
      ((load_plugins rest reg).1, bad.fname :: (load_plugins rest reg).2) := by
  simp [load_plugins, hpy, hfail]

/-- Witness for claim C6: a broken plugin followed by a working one; the
working one still registers its mode and the broken one is logged. -/
theorem plugin_isolation_witness :
    pyEndsWith "broken.py" ".py" = true ∧
    (PluginFile.mk "broken.py" (fun _ => none)).exec [] = none ∧
    load_plugins
      [PluginFile.mk "broken.py" (fun _ => none),
       PluginFile.mk "good.py" (fun r => some ("bruh" :: r))] [] =
      (["bruh"], ["broken.py"]) := by
  refine ⟨by decide, rfl, ?_⟩
  have h := plugin_isolation (PluginFile.mk "broken.py" (fun _ => none))
    [PluginFile.mk "good.py" (fun r => some ("bruh" :: r))] [] (by decide) rfl
  rw [h]
  rfl

/-- Dropping a leading segment can only get longer when the scanned list is
extended on the right. -/
theorem length_dropWhile_le_append (p : Char → Bool) (l1 l2 : List Char) :
    (l1.dropWhile p).length ≤ ((l1 ++ l2).dropWhile p).length := by
  induction l1 with
  | nil => simp
  | cons a t ih =>
    by_cases h : p a
    · simpa [List.dropWhile_cons, h] using ih
    · simp [List.dropWhile_cons, h]

/-- The length of a rendered frame is monotone under appending a fragment to
the accumulator. -/
theorem renderedFrame_length_mono (a d : String) :
    (renderedFrame a).length ≤ (renderedFrame (a ++ d)).length := by
  have h := length_dropWhile_le_append isPyWs a.data d.data
  have ha : (pyLstrip a).length = (a.data.dropWhile isPyWs).length := rfl
  have had : (pyLstrip (a ++ d)).length = ((a.data ++ d.data).dropWhile isPyWs).length := rfl
  simp only [renderedFrame, String.length_append, ha, had]
  omega

/-- The rendered-frame lengths along the streaming accumulator states form a
non-decreasing chain. -/
theorem accumStates_rendered_chain (frags : List String) : ∀ acc : String,
    List.Chain' (fun x y => x ≤ y)
      ((accumStates frags acc).map (fun a => (renderedFrame a).length)) := by
  induction frags with
  | nil => intro acc; simp [accumStates]
  | cons d ds ih =>
    intro acc
    cases ds with
    | nil => simp [accumStates]
    | cons e es =>
      simp only [accumStates, List.map_cons]
      rw [List.chain'_cons]
      exact ⟨renderedFrame_length_mono (acc ++ d) e, ih (acc ++ d)⟩

/-- The last accumulator state is the left fold of all fragments. -/
theorem accumStates_getLastD (frags : List String) : ∀ acc : String,
    (accumStates frags acc).getLastD acc = frags.foldl (fun a d => a ++ d) acc := by
  induction frags with
  | nil => intro acc; rfl
  | cons d ds ih =>
    intro acc
    simp only [accumStates, List.foldl_cons, List.getLastD_cons]
    exact ih (acc ++ d)

/-- Claim C4 (amended): each fragment is appended as a suffix to the
accumulator and the whole accumulator is re-rendered each frame, so the
rendered frame length is non-decreasing across fragments; once the sequence
is exhausted the accumulator equals the full concatenation of the fragments,
and its trim — not the accumulator itself — equals the committed answer. -/
theorem streaming_monotone_final (frags : List String) :
    List.Chain' (fun x y => x ≤ y)
      ((accumStates frags "").map (fun a => (renderedFrame a).length)) ∧
    (accumStates frags "").getLastD "" = frags.foldl (fun acc d => acc ++ d) "" ∧
    pyStrip ((accumStates frags "").getLastD "") = replAsk frags := by
  refine ⟨accumStates_rendered_chain frags "", accumStates_getLastD frags "", ?_⟩
  rw [accumStates_getLastD frags ""]
  rfl

/-- Counterexample to claim C4 as stated: with the single fragment
consisting of the word hi followed by a space, the exhausted accumulator
(and its rendered length) differs from the trimmed final answer. -/
theorem streaming_final_equals_trim_cex :
    ((accumStates ["hi "] "").getLastD "" ≠ replAsk ["hi "]) ∧
    (((accumStates ["hi "] "").getLastD "").length ≠ (replAsk ["hi "]).length) ∧
    ((renderedFrame ((accumStates ["hi "] "").getLastD "")).length ≠
      (replAsk ["hi "]).length) := by
  decide
